import Mathlib

/-!
Verification development for the "Silhouette Dual View (Front+Right)" Blender
add-on (`src/__init__.py`).

The add-on is UI orchestration over Blender's `bpy` object graph.  We embed
the host data the code touches (windows, screens, areas, spaces, regions,
`region_3d` view state) as Lean structures, and each Python function as a pure
Lean function from that state to a new state together with a trace of the
host-API events it performs.  Host behaviour the code cannot control (whether
a `bpy.ops` operator call succeeds, what area list a split produces, what
rotation a view-axis preset installs, whether an unexpected exception is
raised inside a timer callback) is supplied by a `Host` oracle, and the
theorems quantify over it.

Modelling conventions, matching the Python source:
  * plain attribute assignments on host objects always succeed (the code's
    blanket `try/except` around them never fires for valid enum/bool values);
    the one attribute the source itself singles out as possibly missing,
    `show_region_hud`, is modelled as an `Option Bool` that is only written
    when present;
  * Python float literals (`0.05`, `1.3`, `5.0`, `1e-5`, `0.70710678`) are
    embedded as the exact rationals those decimal literals denote;
  * `int(w * 0.25)` for a nonnegative machine-range width is floor division
    by 4 and is embedded as `Nat` division `w / 4`;
  * object identity of `bpy` areas (used by `a not in before`) is embedded by
    giving every area a numeric id; a screen holds the id list of its areas
    and a total map from ids to area data;
  * `mathutils.Quaternion` is embedded as four rationals in `(w, x, y, z)`
    order with the Hamilton product for `@`.
-/

namespace Silhouette

/-- Quaternion in the `(w, x, y, z)` component order used by
`mathutils.Quaternion` construction, iteration and `zip`. -/
structure Quat where
  w : ℚ
  x : ℚ
  y : ℚ
  z : ℚ
deriving DecidableEq, Repr

/-- Hamilton product, the meaning of `q1 @ q2` on `mathutils.Quaternion`. -/
def qmul (a b : Quat) : Quat :=
  { w := a.w * b.w - a.x * b.x - a.y * b.y - a.z * b.z
    x := a.w * b.x + a.x * b.w + a.y * b.z - a.z * b.y
    y := a.w * b.y - a.x * b.z + a.y * b.w + a.z * b.x
    z := a.w * b.z + a.x * b.y - a.y * b.x + a.z * b.w }

/-- Tolerance `1e-5` used by `_post_fix` when comparing view rotations. -/
def qEps : ℚ := 1 / 100000

/-- Componentwise closeness test `abs(a - b) < 1e-5` from `_post_fix`. -/
def qnear (a b : ℚ) : Bool := decide (|a - b| < qEps)

/-- The `same = all(abs(a - b) < 1e-5 for a, b in zip(qt, qb))` test of
`_post_fix`, over the four components in `(w, x, y, z)` order. -/
def sameQuat (p q : Quat) : Bool :=
  qnear p.w q.w && qnear p.x q.x && qnear p.y q.y && qnear p.z q.z

/-- The literal `Quaternion((0.70710678, 0.0, 0.0, 0.70710678))` of
`_post_fix`: `w = z = 0.70710678`, `x = y = 0`. -/
def z90 : Quat :=
  { w := 70710678 / 100000000, x := 0, y := 0, z := 70710678 / 100000000 }

/-- Fields of `space.shading` that `_configure_silhouette_area` writes. -/
structure Shading where
  type : String
  light : String
  color_type : String
  single_color : ℚ × ℚ × ℚ
  background_type : String
  background_color : ℚ × ℚ × ℚ
deriving DecidableEq, Repr

/-- The `space.overlay` sub-object. -/
structure Overlay where
  show_overlays : Bool
deriving DecidableEq, Repr

/-- The `space.region_3d` view state of a `VIEW_3D` space. -/
structure RegionView3D where
  view_perspective : String
  view_rotation : Quat
  view_distance : ℚ
deriving DecidableEq, Repr

/-- A `VIEW_3D` space (`area.spaces.active`).  `show_region_hud` is an
`Option` because the source guards that one attribute with its own
`try/except` ("Hide HUD if Blender exposes it"): `none` models a host that
does not expose it, in which case the assignment is a swallowed no-op. -/
structure SpaceData where
  shading : Shading
  overlay : Overlay
  show_region_header : Bool
  show_region_tool_header : Bool
  show_region_toolbar : Bool
  show_region_ui : Bool
  show_region_hud : Option Bool
  show_gizmo : Bool
  show_gizmo_navigate : Bool
  region_3d : RegionView3D
deriving DecidableEq, Repr

/-- A screen area.  `regions` holds the region types present, in order;
`space` is `area.spaces.active`. -/
structure AreaData where
  type : String
  ui_type : String
  x : Int
  y : Int
  width : Nat
  height : Nat
  regions : List String
  space : SpaceData
deriving DecidableEq, Repr

/-- A screen: the ids of its areas (object identity of `screen.areas`
members) plus a total map from ids to area data, and the status-bar flag. -/
structure Screen where
  areaIds : List Nat
  areas : Nat → AreaData
  show_statusbar : Bool

/-- A Blender window.  Geometry fields are `Option` because the source reads
them with `getattr(orig_win, 'width', 1600)`-style defaults. -/
structure Window where
  width : Option Nat
  height : Option Nat
  x : Option Int
  y : Option Int
  screen : Screen

/-- Host-API events a run performs.  The constructors `render` and
`externalWrite` are never emitted by any function in this development; they
exist so that "draws nothing" and "writes no external state" are expressible
as the absence of those events in a trace. -/
inductive Ev where
  | opWindowNew (ok : Bool)
  | opAreaSplit (direction : String) (ok : Bool)
  | opViewAxis (aid : Nat) (axis : String) (ok : Bool)
  | opViewSelected (aid : Nat) (ok : Bool)
  | configureCall (aid : Nat) (axis : String)
  | setAttr (aid : Nat) (field : String)
  | setWinAttr (field : String)
  | timerRegister (ok : Bool)
  | report (msg : String)
  | swallowed
  | render
  | externalWrite (target : String)
deriving DecidableEq, Repr

/-- Result set returned by an operator `execute`. -/
inductive OpRes where
  | FINISHED
  | CANCELLED
deriving DecidableEq, Repr

/-- Host oracle: everything the add-on's code observes from Blender but does
not itself determine.  `axis_ops_ok` is the success of the whole
viewnumpad / view_axis fallback chain of `_apply_view_axis` (the chain is
attempted identically under `temp_override` and under the legacy dict
override, so only its overall success matters); `axisRot ax` is the rotation
the host installs when the chain succeeds for preset `ax`.  The `…Post`
screens are the host's screen state after a successful `screen.area_split`
at the respective call site.  `deferred_raises` / `postfix_raises` model an
unexpected exception inside the respective timer callback, which the
callback's outer `try/except` swallows. -/
structure Host where
  window_new_ok : Bool
  newWin0 : Window
  timer_reg_ok : Bool
  timer_reg_ok2 : Bool
  deferred_raises : Bool
  postfix_raises : Bool
  axis_ops_ok : Bool
  axisRot : String → Quat
  view_selected_ok : Bool
  framedDist : ℚ
  dsplit_ok : Bool
  dsplit_cur_ok : Bool
  dsplitPost : Screen
  vsplit_ok : Bool
  vsplit_cur_ok : Bool
  vsplitPost : Screen
  hsplit_ok : Bool
  hsplit_cur_ok : Bool
  hsplitPost : Screen

/-- The slice of `bpy.context` the two `poll` classmethods read. -/
structure Ctx where
  mode : String
  activeObject : Bool
  areaId : Option Nat
  screen : Screen

/-- Replace the area with id `i` (Python: mutate the area object). -/
def updArea (s : Screen) (i : Nat) (f : AreaData → AreaData) : Screen :=
  { s with areas := fun j => if j = i then f (s.areas j) else s.areas j }

/-- Mutate the active space of area `i`. -/
def updSpace (s : Screen) (i : Nat) (f : SpaceData → SpaceData) : Screen :=
  updArea s i (fun a => { a with space := f a.space })

/-- Mutate the `region_3d` of area `i`. -/
def updR3d (s : Screen) (i : Nat) (f : RegionView3D → RegionView3D) : Screen :=
  updSpace s i (fun sp => { sp with region_3d := f sp.region_3d })

/-- First `VIEW_3D` area of a screen, as `_find_window_view3d_area` finds it. -/
def findView3dArea (s : Screen) : Option Nat :=
  s.areaIds.find? (fun i => (s.areas i).type == "VIEW_3D")

/-- Whether an area has a `WINDOW` region
(`next((r for r in area.regions if r.type == 'WINDOW'), None)` is not `None`). -/
def hasWindowRegion (a : AreaData) : Bool :=
  a.regions.contains "WINDOW"

/-- The shading values `_configure_silhouette_area` installs. -/
def silhouetteShading : Shading :=
  { type := "SOLID", light := "FLAT", color_type := "SINGLE"
    single_color := (0, 0, 0)
    background_type := "VIEWPORT"
    background_color := (1, 1, 1) }

/-- The UI-hiding block: header, tool header, toolbar, sidebar, gizmos and
overlays off.  `withHud` distinguishes the first block of
`_configure_silhouette_area` (which also tries `show_region_hud`) from the
re-hide blocks elsewhere (which do not touch it). -/
def hideUIFlags (withHud : Bool) (sp : SpaceData) : SpaceData :=
  { sp with
    show_region_header := false
    show_region_tool_header := false
    show_region_toolbar := false
    show_region_ui := false
    show_region_hud :=
      if withHud then sp.show_region_hud.map (fun _ => false)
      else sp.show_region_hud
    show_gizmo := false
    show_gizmo_navigate := false
    overlay := { sp.overlay with show_overlays := false } }

/-- Embedding of `_apply_view_axis`: first force
`region_3d.view_perspective = 'ORTHO'` by direct assignment, then run the
viewnumpad / view_axis fallback chain, which on success installs the host's
rotation for the preset.  The final "lock in the resulting quaternion" step
reads the rotation and writes it back, a state no-op. -/
def applyViewAxis (h : Host) (s : Screen) (aid : Nat) (axis : String) :
    Screen × List Ev :=
  let s1 := updR3d s aid (fun r => { r with view_perspective := "ORTHO" })
  let s2 :=
    if h.axis_ops_ok then
      updR3d s1 aid (fun r => { r with view_rotation := h.axisRot axis })
    else s1
  (s2, [Ev.setAttr aid "view_perspective", Ev.opViewAxis aid axis h.axis_ops_ok])

/-- Embedding of `_configure_silhouette_area`: force the area to `VIEW_3D`,
install the silhouette shading, hide the UI (including the optional HUD),
apply the axis, frame the selection with `view3d.view_selected`, re-apply
the axis, and re-hide the UI.  A successful `view_selected` changes the view
distance to whatever the host computes for the framed selection. -/
def configureSilhouetteArea (h : Host) (s : Screen) (aid : Nat) (axis : String) :
    Screen × List Ev :=
  let s1 := updArea s aid (fun a => { a with type := "VIEW_3D", ui_type := "VIEW_3D" })
  let s2 := updSpace s1 aid (fun sp => { sp with shading := silhouetteShading })
  let s3 := updSpace s2 aid (hideUIFlags true)
  let p1 := applyViewAxis h s3 aid axis
  let s4 :=
    if h.view_selected_ok then
      updR3d p1.1 aid (fun r => { r with view_distance := h.framedDist })
    else p1.1
  let p2 := applyViewAxis h s4 aid axis
  let s5 := updSpace p2.1 aid (hideUIFlags false)
  (s5,
    Ev.configureCall aid axis ::
    Ev.setAttr aid "type" :: Ev.setAttr aid "shading" :: Ev.setAttr aid "hideUI" ::
    p1.2 ++
    Ev.opViewSelected aid h.view_selected_ok ::
    p2.2 ++ [Ev.setAttr aid "hideUI"])

/-- The shared tail of both operators: configure the top area as `FRONT` and
the bottom area as `RIGHT`, then apply each axis once more. -/
def configurePair (h : Host) (s : Screen) (t b : Nat) : Screen × List Ev :=
  let c1 := configureSilhouetteArea h s t "FRONT"
  let c2 := configureSilhouetteArea h c1.1 b "RIGHT"
  let a1 := applyViewAxis h c2.1 t "FRONT"
  let a2 := applyViewAxis h a1.1 b "RIGHT"
  (a2.1, c1.2 ++ c2.2 ++ a1.2 ++ a2.2)

/-- Poll of `view3d.open_silhouette_view_dual`:
`context.mode == 'OBJECT' and context.view_layer.objects.active is not None`. -/
def pollDual (c : Ctx) : Bool :=
  c.mode == "OBJECT" && c.activeObject

/-- Poll of `view3d.open_silhouette_split_current`: additionally the current
area exists and is a `VIEW_3D`. -/
def pollSplit (c : Ctx) : Bool :=
  c.mode == "OBJECT" &&
  (match c.areaId with
   | none => false
   | some i => (c.screen.areas i).type == "VIEW_3D") &&
  c.activeObject

/-- Operator ids laid out by `VIEW3D_MT_silhouette_menu.draw`, in order. -/
def silhouetteMenuItems : List String :=
  [ "view3d.open_silhouette_split_current", "view3d.open_silhouette_view_dual" ]

/-- Entries `draw_in_view_menu` appends to the View menu: the single
`Silhouette` submenu, and only in object mode. -/
def drawInViewMenu (mode : String) : List String :=
  if mode == "OBJECT" then [ "VIEW3D_MT_silhouette_menu" ] else []

/-- Embedding of `VIEW3D_OT_open_silhouette_view_dual.execute`: run
`wm.window_new` (reporting an error and returning `CANCELLED` if it raises),
then size and place the new window from the original window's geometry with
`getattr` defaults, hide its status bar (twice, per the source), register the
deferred-setup timer (a failure to register is swallowed), and return
`FINISHED`. -/
def dualExecute (h : Host) (ow : Window) : OpRes × Option Window × List Ev :=
  if h.window_new_ok = false then
    (OpRes.CANCELLED, none,
      [Ev.opWindowNew false, Ev.report "Failed to open new window"])
  else
    let owWidth := ow.width.getD 1600
    let owHeight := ow.height.getD 900
    let nw0 := h.newWin0
    let nw : Window :=
      { nw0 with
        width := some (max 480 (owWidth / 4))
        height := some (max 360 (owHeight / 4))
        x := some (ow.x.getD 100 + 80)
        y := some (ow.y.getD 100 - 80)
        screen := { nw0.screen with show_statusbar := false } }
    (OpRes.FINISHED, some nw,
      [Ev.opWindowNew true,
       Ev.setWinAttr "width", Ev.setWinAttr "height",
       Ev.setWinAttr "x", Ev.setWinAttr "y",
       Ev.setWinAttr "show_statusbar", Ev.setWinAttr "show_statusbar",
       Ev.timerRegister h.timer_reg_ok])

/-- Readiness predicate for one invocation of `_deferred_setup`: the checks
the callback performs before it commits to configuring, in source order.  It
fails (and the callback retries) when the new window has no `VIEW_3D` area
yet, that area has no `WINDOW` region, both split attempts raise, the split
produced no new area, or either sub-area lacks a `WINDOW` region. -/
def deferredReady (h : Host) (scr : Screen) : Bool :=
  match findView3dArea scr with
  | none => false
  | some aidA =>
    hasWindowRegion (scr.areas aidA) &&
    (h.dsplit_ok || h.dsplit_cur_ok) &&
    (match h.dsplitPost.areaIds.filter (fun i => !scr.areaIds.contains i) with
     | [] => false
     | newId :: _ =>
       let top :=
         if (h.dsplitPost.areas aidA).y ≥ (h.dsplitPost.areas newId).y then aidA else newId
       let bot :=
         if (h.dsplitPost.areas aidA).y ≥ (h.dsplitPost.areas newId).y then newId else aidA
       hasWindowRegion (h.dsplitPost.areas top) &&
       hasWindowRegion (h.dsplitPost.areas bot))

/-- Final screen state of a completing `_deferred_setup` invocation, from the
post-split screen: configure the pair, re-hide the UI on both areas one more
time, then back the view distance off by a factor `1.3` (with `5.0` replacing
a zero distance, per `float(...) or 5.0`) on both `region_3d`s. -/
def deferredFinish (h : Host) (t b : Nat) : Screen :=
  let p := configurePair h h.dsplitPost t b
  let s2 := updSpace (updSpace p.1 t (hideUIFlags false)) b (hideUIFlags false)
  let d0 := (s2.areas t).space.region_3d.view_distance
  let d := (if d0 = 0 then 5 else d0) * (13 / 10)
  updR3d (updR3d s2 t (fun r => { r with view_distance := d })) b
    (fun r => { r with view_distance := d })

/-- Event trace of a completing `_deferred_setup` invocation. -/
def deferredFinishTrace (h : Host) (t b : Nat) : List Ev :=
  Ev.opAreaSplit "HORIZONTAL" true :: (configurePair h h.dsplitPost t b).2 ++
  [Ev.setAttr t "hideUI", Ev.setAttr b "hideUI",
   Ev.setAttr t "view_distance", Ev.setAttr b "view_distance"]

/-- Embedding of one invocation of the `_deferred_setup` timer callback.  The
returned `Option ℚ` is the callback's return value: `some (1/20)` is the
`return 0.05` retry, `none` is `return None`.  An unexpected exception
anywhere in the body is modelled by `h.deferred_raises` and hits the outer
`except Exception: return None`. -/
def deferredSetup (h : Host) (scr : Screen) : Screen × Option ℚ × List Ev :=
  if h.deferred_raises then (scr, none, [Ev.swallowed]) else
  match findView3dArea scr with
  | none => (scr, some (1 / 20), [])
  | some aidA =>
    if !hasWindowRegion (scr.areas aidA) then (scr, some (1 / 20), []) else
    if h.dsplit_ok || h.dsplit_cur_ok then
      let s1 := h.dsplitPost
      match s1.areaIds.filter (fun i => !scr.areaIds.contains i) with
      | [] => (s1, some (1 / 20), [Ev.opAreaSplit "HORIZONTAL" true])
      | newId :: _ =>
        let top := if (s1.areas aidA).y ≥ (s1.areas newId).y then aidA else newId
        let bot := if (s1.areas aidA).y ≥ (s1.areas newId).y then newId else aidA
        if !(hasWindowRegion (s1.areas top) && hasWindowRegion (s1.areas bot)) then
          (s1, some (1 / 20), [Ev.opAreaSplit "HORIZONTAL" true])
        else
          (deferredFinish h top bot, none, deferredFinishTrace h top bot)
    else (scr, some (1 / 20), [Ev.opAreaSplit "HORIZONTAL" false, Ev.swallowed])

/-- A full run of the dual-window operator: `execute`, then — if the window
was created and the timer could be registered — one invocation of
`_deferred_setup` on the new window's screen. -/
def dualRun (h : Host) (ow : Window) : OpRes × List Ev :=
  let e := dualExecute h ow
  match e.2.1 with
  | none => (e.1, e.2.2)
  | some nw =>
    if h.timer_reg_ok then
      let d := deferredSetup h nw.screen
      (e.1, e.2.2 ++ d.2.2)
    else (e.1, e.2.2)

/-- Python `max(l, key=lambda a: a.x)` over area ids: the first element with
maximal `x` (later elements replace the best only when strictly greater). -/
def pyMaxByX (s : Screen) (a0 : Nat) (l : List Nat) : Nat :=
  l.foldl (fun best a => if (s.areas a).x > (s.areas best).x then a else best) a0

/-- First element of Python `sorted(l, key=lambda a: a.x)`: the first element
with minimal `x` (stable sort keeps the earliest of equal keys in front). -/
def pyMinByXFirst (s : Screen) (a0 : Nat) (l : List Nat) : Nat :=
  l.foldl (fun best a => if (s.areas a).x < (s.areas best).x then a else best) a0

/-- Last element of Python `sorted(l, key=lambda a: a.x)`: the last element
with maximal `x`. -/
def pyMaxByXLast (s : Screen) (a0 : Nat) (l : List Nat) : Nat :=
  l.foldl (fun best a => if (s.areas a).x ≥ (s.areas best).x then a else best) a0

/-- The sort key comparison of
`sorted(..., key=lambda a: (abs(a.x - area_left.x), -a.y))`:
lexicographic on distance from the left area's `x`, then descending `y`. -/
def subKeyLe (s : Screen) (lx : Int) (i j : Nat) : Bool :=
  let ki := |(s.areas i).x - lx|
  let kj := |(s.areas j).x - lx|
  if ki = kj then decide ((s.areas j).y ≤ (s.areas i).y) else decide (ki < kj)

/-- Insert into a sorted list, keeping an earlier element in front of a later
equal one (stability, as Python's `sorted` guarantees). -/
def ordIns (le : Nat → Nat → Bool) (a : Nat) : List Nat → List Nat
  | [] => [a]
  | b :: l => if le a b then a :: b :: l else b :: ordIns le a l

/-- Stable insertion sort, the embedding of Python's `sorted`. -/
def insSort (le : Nat → Nat → Bool) : List Nat → List Nat
  | [] => []
  | a :: l => ordIns le a (insSort le l)

/-- Final phase of `VIEW3D_OT_open_silhouette_split_current.execute`, from
`new_areas2` on: collect the `VIEW_3D` areas among the new areas plus the
left area, stable-sort them by `(abs(a.x - area_left.x), -a.y)` and take two
(`CANCELLED` when fewer remain); order the two as top and bottom by `y`;
require `WINDOW` regions on both; configure `FRONT` on top and `RIGHT` on
bottom; register the `_post_fix` timer and return `FINISHED`. -/
def splitStage3 (h : Host) (s2 : Screen) (tH : List Ev) (areaLeft : Nat)
    (newAreas2 : List Nat) : OpRes × Screen × Option (Nat × Nat) × List Ev :=
  let lx := (s2.areas areaLeft).x
  let cands := (newAreas2 ++ [areaLeft]).filter (fun i => (s2.areas i).type == "VIEW_3D")
  match (insSort (subKeyLe s2 lx) cands).take 2 with
  | [p, q] =>
    let top := if (s2.areas p).y ≥ (s2.areas q).y then p else q
    let bot := if (s2.areas p).y ≥ (s2.areas q).y then q else p
    if hasWindowRegion (s2.areas top) && hasWindowRegion (s2.areas bot) then
      let c := configurePair h s2 top bot
      (OpRes.FINISHED, c.1, some (top, bot),
        Ev.opAreaSplit "VERTICAL" true :: tH ++ c.2 ++
        [Ev.timerRegister h.timer_reg_ok2])
    else
      (OpRes.CANCELLED, s2, none,
        Ev.opAreaSplit "VERTICAL" true :: tH ++
        [Ev.report "Could not get WINDOW regions for left sub-areas."])
  | _ =>
    (OpRes.CANCELLED, s2, none,
      Ev.opAreaSplit "VERTICAL" true :: tH ++
      [Ev.report "Left split did not produce two VIEW_3D areas."])

/-- Middle phase of `VIEW3D_OT_open_silhouette_split_current.execute`: split
the left area horizontally.  The split only happens when the left area has a
`WINDOW` region, because the source's `for r in area_left.regions` loop
silently does nothing otherwise; when it happens and both split attempts
raise, the operator reports and returns `CANCELLED`.  `new_areas2` is then
computed against the pre-split id list, and an empty result is `CANCELLED`. -/
def splitStage2 (h : Host) (s1 : Screen) (areaLeft : Nat) :
    OpRes × Screen × Option (Nat × Nat) × List Ev :=
  let didSplit := hasWindowRegion (s1.areas areaLeft)
  if didSplit && !(h.hsplit_ok || h.hsplit_cur_ok) then
    (OpRes.CANCELLED, s1, none,
      [Ev.opAreaSplit "VERTICAL" true, Ev.opAreaSplit "HORIZONTAL" false,
       Ev.report "Failed to split left area"])
  else
    let s2 := if didSplit then h.hsplitPost else s1
    let tH : List Ev := if didSplit then [Ev.opAreaSplit "HORIZONTAL" true] else []
    match s2.areaIds.filter (fun i => !s1.areaIds.contains i) with
    | [] =>
      (OpRes.CANCELLED, s2, none,
        Ev.opAreaSplit "VERTICAL" true :: tH ++
        [Ev.report "Could not determine sub-areas of left split."])
    | m0 :: ms => splitStage3 h s2 tH areaLeft (m0 :: ms)

/-- Embedding of `VIEW3D_OT_open_silhouette_split_current.execute`.  `aid` is
`context.area`, `scr0` is `context.screen`.  On success the returned pair of
ids is `(left_top, left_bottom)`, the areas the closure `_post_fix` captures.
The phases mirror the source: require a `WINDOW` region in the current area;
split vertically (both attempts raising means `CANCELLED`); pick the
rightmost new area by Python `max` semantics and the left area — `area`
itself when `area.x <= area_right.x`, otherwise the first element of the
stable sort of `[area] + new_areas` by `x` — and hand over to the
horizontal-split phase `splitStage2`. -/
def splitExecute (h : Host) (scr0 : Screen) (aid : Nat) :
    OpRes × Screen × Option (Nat × Nat) × List Ev :=
  if !hasWindowRegion (scr0.areas aid) then
    (OpRes.CANCELLED, scr0, none, [Ev.report "No WINDOW region in current area."])
  else
  if h.vsplit_ok || h.vsplit_cur_ok then
    let s1 := h.vsplitPost
    match s1.areaIds.filter (fun i => !scr0.areaIds.contains i) with
    | [] =>
      (OpRes.CANCELLED, s1, none,
        [Ev.opAreaSplit "VERTICAL" true, Ev.report "Could not determine new split area."])
    | n0 :: ns =>
      let areaRight := pyMaxByX s1 n0 ns
      let areaLeft :=
        if (s1.areas aid).x ≤ (s1.areas areaRight).x then aid
        else pyMinByXFirst s1 aid (n0 :: ns)
      splitStage2 h s1 areaLeft
  else
    (OpRes.CANCELLED, scr0, none,
      [Ev.opAreaSplit "VERTICAL" false, Ev.report "Failed to split current area"])

/-- Embedding of the `_post_fix` timer callback of the split-current
operator, over the captured `left_top` / `left_bottom` ids: re-apply both
axes; if the two resulting rotations agree componentwise within `1e-5`, set
the bottom rotation to `z90 @ qt` and force the bottom view to `ORTHO`;
re-hide the UI on both areas; return `None` (the `Option ℚ` component, which
is `none` on every path — this callback never reschedules). -/
def postFixCb (h : Host) (scr : Screen) (t b : Nat) : Screen × Option ℚ × List Ev :=
  if h.postfix_raises then (scr, none, [Ev.swallowed]) else
  let a1 := applyViewAxis h scr t "FRONT"
  let a2 := applyViewAxis h a1.1 b "RIGHT"
  let s1 := a2.1
  let qt := (s1.areas t).space.region_3d.view_rotation
  let qb := (s1.areas b).space.region_3d.view_rotation
  let s2 :=
    if sameQuat qt qb then
      updR3d s1 b (fun r =>
        { r with view_rotation := qmul z90 qt, view_perspective := "ORTHO" })
    else s1
  let s3 := updSpace (updSpace s2 t (hideUIFlags false)) b (hideUIFlags false)
  (s3, none,
    a1.2 ++ a2.2 ++
    (if sameQuat qt qb then [Ev.setAttr b "view_rotation"] else []) ++
    [Ev.setAttr t "hideUI", Ev.setAttr b "hideUI"])

/-- The `_configure_silhouette_area` invocations recorded in a trace, in
order, as (area id, axis) pairs. -/
def configureCalls (t : List Ev) : List (Nat × String) :=
  t.filterMap (fun e =>
    match e with
    | Ev.configureCall a ax => some (a, ax)
    | _ => none)

/-- True when an event writes state outside the host's own window/scene
data.  No function in this development ever emits such an event. -/
def isExternalWrite (e : Ev) : Bool :=
  match e with
  | Ev.externalWrite _ => true
  | _ => false

/-- True when an event is a rendering step.  Never emitted. -/
def isRender (e : Ev) : Bool :=
  match e with
  | Ev.render => true
  | _ => false

/-- True for the `wm.window_new` call event. -/
def isWindowNew (e : Ev) : Bool :=
  match e with
  | Ev.opWindowNew _ => true
  | _ => false

/-- True for an `operator.report(...)` event. -/
def isReport (e : Ev) : Bool :=
  match e with
  | Ev.report _ => true
  | _ => false

/-- A trace that touches nothing outside the host's own data. -/
def hostScopedTrace (t : List Ev) : Bool :=
  t.all (fun e => !isExternalWrite e)

/-- Concrete view state for witnesses: a perspective view, identity rotation,
distance 10. -/
def sampleR3d : RegionView3D :=
  { view_perspective := "PERSP"
    view_rotation := { w := 1, x := 0, y := 0, z := 0 }
    view_distance := 10 }

/-- Concrete space for witnesses, with every flag in its Blender default
state and the HUD toggle exposed. -/
def sampleSpace : SpaceData :=
  { shading :=
      { type := "SOLID", light := "STUDIO", color_type := "MATERIAL"
        single_color := (1, 1, 1)
        background_type := "THEME"
        background_color := (1 / 5, 1 / 5, 1 / 5) }
    overlay := { show_overlays := true }
    show_region_header := true
    show_region_tool_header := true
    show_region_toolbar := true
    show_region_ui := true
    show_region_hud := some true
    show_gizmo := true
    show_gizmo_navigate := true
    region_3d := sampleR3d }

/-- Concrete area builder for witnesses. -/
def mkArea (t : String) (ax ay : Int) : AreaData :=
  { type := t, ui_type := t, x := ax, y := ay, width := 800, height := 600
    regions := [ "HEADER", "WINDOW" ], space := sampleSpace }

/-- Screen of the freshly created window: a single `VIEW_3D` area. -/
def scrNew : Screen :=
  { areaIds := [0], areas := fun _ => mkArea "VIEW_3D" 0 0, show_statusbar := true }

/-- Host screen after the deferred horizontal split: the original area `0`
moved to the top, the new area `1` below it. -/
def scrDPost : Screen :=
  { areaIds := [0, 1]
    areas := fun i => if i = 0 then mkArea "VIEW_3D" 0 100 else mkArea "VIEW_3D" 0 0
    show_statusbar := true }

/-- Host screen after the vertical split of the current area: new area `2`
to the right of area `0`. -/
def scrVPost : Screen :=
  { areaIds := [0, 2]
    areas := fun i => if i = 2 then mkArea "VIEW_3D" 100 0 else mkArea "VIEW_3D" 0 0
    show_statusbar := true }

/-- Host screen after the horizontal split of the left area: new area `3`
above area `0`, area `2` still on the right. -/
def scrHPost : Screen :=
  { areaIds := [0, 2, 3]
    areas := fun i =>
      if i = 2 then mkArea "VIEW_3D" 100 0
      else if i = 3 then mkArea "VIEW_3D" 0 100
      else mkArea "VIEW_3D" 0 0
    show_statusbar := true }

/-- The original window for witnesses. -/
def winS : Window :=
  { width := some 1600, height := some 900, x := some 100, y := some 100
    screen := scrNew }

/-- A host on which every call the add-on makes succeeds. -/
def hS : Host :=
  { window_new_ok := true
    newWin0 :=
      { width := some 800, height := some 450, x := some 0, y := some 0
        screen := scrNew }
    timer_reg_ok := true
    timer_reg_ok2 := true
    deferred_raises := false
    postfix_raises := false
    axis_ops_ok := true
    axisRot := fun _ => { w := 1, x := 0, y := 0, z := 0 }
    view_selected_ok := true
    framedDist := 5
    dsplit_ok := true
    dsplit_cur_ok := false
    dsplitPost := scrDPost
    vsplit_ok := true
    vsplit_cur_ok := false
    vsplitPost := scrVPost
    hsplit_ok := true
    hsplit_cur_ok := false
    hsplitPost := scrHPost }

/-- Like `hS` but the timer registration for `_deferred_setup` fails. -/
def hS2 : Host :=
  { hS with timer_reg_ok := false }

/-- Like `hS` but an unexpected exception is raised inside `_deferred_setup`. -/
def hSR : Host :=
  { hS with deferred_raises := true }

/-- A context that satisfies both polls. -/
def ctxS : Ctx :=
  { mode := "OBJECT", activeObject := true, areaId := some 0, screen := scrNew }

theorem updArea_areas_self (s : Screen) (i : Nat) (f : AreaData → AreaData) :
    (updArea s i f).areas i = f (s.areas i) := by
  simp [updArea]

theorem updArea_areas_ne (s : Screen) (i j : Nat) (f : AreaData → AreaData)
    (hj : j ≠ i) : (updArea s i f).areas j = s.areas j := by
  simp [updArea, hj]

theorem updSpace_areas_self (s : Screen) (i : Nat) (f : SpaceData → SpaceData) :
    (updSpace s i f).areas i = { s.areas i with space := f (s.areas i).space } := by
  simp [updSpace, updArea_areas_self]

theorem updSpace_areas_ne (s : Screen) (i j : Nat) (f : SpaceData → SpaceData)
    (hj : j ≠ i) : (updSpace s i f).areas j = s.areas j := by
  simp [updSpace, updArea_areas_ne, hj]

theorem updR3d_areas_self (s : Screen) (i : Nat) (f : RegionView3D → RegionView3D) :
    (updR3d s i f).areas i =
      { s.areas i with space :=
        { (s.areas i).space with region_3d := f (s.areas i).space.region_3d } } := by
  simp [updR3d, updSpace_areas_self]

theorem updR3d_areas_ne (s : Screen) (i j : Nat) (f : RegionView3D → RegionView3D)
    (hj : j ≠ i) : (updR3d s i f).areas j = s.areas j := by
  simp [updR3d, updSpace_areas_ne, hj]

theorem hideUIFlags_region_3d (w : Bool) (sp : SpaceData) :
    (hideUIFlags w sp).region_3d = sp.region_3d := rfl

theorem hideUIFlags_shading (w : Bool) (sp : SpaceData) :
    (hideUIFlags w sp).shading = sp.shading := rfl

theorem updSpace_hide_region_3d (s : Screen) (i : Nat) (w : Bool) (j : Nat) :
    ((updSpace s i (hideUIFlags w)).areas j).space.region_3d =
      (s.areas j).space.region_3d := by
  by_cases hj : j = i
  · subst hj; rw [updSpace_areas_self]; rfl
  · rw [updSpace_areas_ne _ _ _ _ hj]

theorem applyViewAxis_areas_self (h : Host) (s : Screen) (i : Nat) (ax : String) :
    ((applyViewAxis h s i ax).1.areas i) =
      { s.areas i with space :=
        { (s.areas i).space with region_3d :=
          { (s.areas i).space.region_3d with
            view_perspective := "ORTHO"
            view_rotation :=
              if h.axis_ops_ok then h.axisRot ax
              else (s.areas i).space.region_3d.view_rotation } } } := by
  by_cases hok : h.axis_ops_ok <;>
    simp [applyViewAxis, hok, updR3d_areas_self]

theorem applyViewAxis_areas_ne (h : Host) (s : Screen) (i j : Nat) (ax : String)
    (hj : j ≠ i) : ((applyViewAxis h s i ax).1.areas j) = s.areas j := by
  by_cases hok : h.axis_ops_ok <;>
    simp [applyViewAxis, hok, updR3d_areas_ne, hj]

theorem applyViewAxis_trace (h : Host) (s : Screen) (i : Nat) (ax : String) :
    (applyViewAxis h s i ax).2 =
      [Ev.setAttr i "view_perspective", Ev.opViewAxis i ax h.axis_ops_ok] := rfl

theorem configure_areas_self (h : Host) (s : Screen) (i : Nat) (ax : String) :
    ((configureSilhouetteArea h s i ax).1.areas i) =
      { type := "VIEW_3D", ui_type := "VIEW_3D"
        x := (s.areas i).x, y := (s.areas i).y
        width := (s.areas i).width, height := (s.areas i).height
        regions := (s.areas i).regions
        space :=
          { shading := silhouetteShading
            overlay := { show_overlays := false }
            show_region_header := false
            show_region_tool_header := false
            show_region_toolbar := false
            show_region_ui := false
            show_region_hud := (s.areas i).space.show_region_hud.map (fun _ => false)
            show_gizmo := false
            show_gizmo_navigate := false
            region_3d :=
              { view_perspective := "ORTHO"
                view_rotation :=
                  if h.axis_ops_ok then h.axisRot ax
                  else (s.areas i).space.region_3d.view_rotation
                view_distance :=
                  if h.view_selected_ok then h.framedDist
                  else (s.areas i).space.region_3d.view_distance } } } := by
  simp only [configureSilhouetteArea]
  by_cases hsel : h.view_selected_ok <;>
  by_cases hok : h.axis_ops_ok <;>
    simp [hsel, hok, applyViewAxis_areas_self, updR3d_areas_self, updSpace_areas_self,
      updArea_areas_self, hideUIFlags, silhouetteShading]

theorem configure_areas_ne (h : Host) (s : Screen) (i j : Nat) (ax : String)
    (hj : j ≠ i) : ((configureSilhouetteArea h s i ax).1.areas j) = s.areas j := by
  simp only [configureSilhouetteArea]
  by_cases hsel : h.view_selected_ok <;>
    simp [hsel, applyViewAxis_areas_ne, updR3d_areas_ne, updSpace_areas_ne,
      updArea_areas_ne, hj]

theorem configure_trace (h : Host) (s : Screen) (i : Nat) (ax : String) :
    (configureSilhouetteArea h s i ax).2 =
      [Ev.configureCall i ax,
       Ev.setAttr i "type", Ev.setAttr i "shading", Ev.setAttr i "hideUI",
       Ev.setAttr i "view_perspective", Ev.opViewAxis i ax h.axis_ops_ok,
       Ev.opViewSelected i h.view_selected_ok,
       Ev.setAttr i "view_perspective", Ev.opViewAxis i ax h.axis_ops_ok,
       Ev.setAttr i "hideUI"] := rfl

theorem configurePair_trace (h : Host) (s : Screen) (t b : Nat) :
    (configurePair h s t b).2 =
      (configureSilhouetteArea h s t "FRONT").2 ++
      (configureSilhouetteArea h (configureSilhouetteArea h s t "FRONT").1 b "RIGHT").2 ++
      [Ev.setAttr t "view_perspective", Ev.opViewAxis t "FRONT" h.axis_ops_ok] ++
      [Ev.setAttr b "view_perspective", Ev.opViewAxis b "RIGHT" h.axis_ops_ok] := rfl

theorem configureCalls_configurePair (h : Host) (s : Screen) (t b : Nat) :
    configureCalls (configurePair h s t b).2 = [(t, "FRONT"), (b, "RIGHT")] := rfl

theorem configurePair_areas_top (h : Host) (s : Screen) (t b : Nat) (hne : t ≠ b) :
    ((configurePair h s t b).1.areas t) =
      (configureSilhouetteArea h s t "FRONT").1.areas t := by
  simp only [configurePair]
  rw [applyViewAxis_areas_ne _ _ _ _ _ hne]
  rw [applyViewAxis_areas_self]
  rw [configure_areas_ne _ _ _ _ _ hne]
  rw [configure_areas_self]
  by_cases hok : h.axis_ops_ok <;> simp [hok]

theorem configurePair_areas_bot (h : Host) (s : Screen) (t b : Nat) (hne : t ≠ b) :
    ((configurePair h s t b).1.areas b) =
      (configureSilhouetteArea h (configureSilhouetteArea h s t "FRONT").1 b "RIGHT").1.areas b := by
  simp only [configurePair]
  rw [applyViewAxis_areas_self]
  rw [applyViewAxis_areas_ne _ _ _ _ _ (Ne.symm hne)]
  rw [configure_areas_self]
  by_cases hok : h.axis_ops_ok <;> simp [hok, configure_areas_self]

theorem configurePair_areas_nother (h : Host) (s : Screen) (t b j : Nat)
    (hjt : j ≠ t) (hjb : j ≠ b) :
    ((configurePair h s t b).1.areas j) = s.areas j := by
  simp only [configurePair]
  rw [applyViewAxis_areas_ne _ _ _ _ _ hjb]
  rw [applyViewAxis_areas_ne _ _ _ _ _ hjt]
  rw [configure_areas_ne _ _ _ _ _ hjb]
  rw [configure_areas_ne _ _ _ _ _ hjt]

theorem configurePair_top_silhouette (h : Host) (s : Screen) (t b : Nat) (hne : t ≠ b) :
    ((configurePair h s t b).1.areas t).type = "VIEW_3D" ∧
    ((configurePair h s t b).1.areas t).space.shading = silhouetteShading ∧
    ((configurePair h s t b).1.areas t).space.region_3d.view_perspective = "ORTHO" := by
  rw [configurePair_areas_top _ _ _ _ hne, configure_areas_self]
  simp

theorem configurePair_bot_silhouette (h : Host) (s : Screen) (t b : Nat) (hne : t ≠ b) :
    ((configurePair h s t b).1.areas b).type = "VIEW_3D" ∧
    ((configurePair h s t b).1.areas b).space.shading = silhouetteShading ∧
    ((configurePair h s t b).1.areas b).space.region_3d.view_perspective = "ORTHO" := by
  rw [configurePair_areas_bot _ _ _ _ hne, configure_areas_self]
  simp

theorem deferredFinish_top (h : Host) (t b : Nat) (hne : t ≠ b) :
    ((deferredFinish h t b).areas t).type = "VIEW_3D" ∧
    ((deferredFinish h t b).areas t).space.shading = silhouetteShading ∧
    ((deferredFinish h t b).areas t).space.region_3d.view_perspective = "ORTHO" := by
  simp only [deferredFinish]
  rw [updR3d_areas_ne _ _ _ _ hne]
  rw [updR3d_areas_self]
  rw [updSpace_areas_ne _ _ _ _ hne]
  rw [updSpace_areas_self]
  rw [configurePair_areas_top _ _ _ _ hne]
  rw [configure_areas_self]
  simp [hideUIFlags, silhouetteShading]

theorem deferredFinish_bot (h : Host) (t b : Nat) (hne : t ≠ b) :
    ((deferredFinish h t b).areas b).type = "VIEW_3D" ∧
    ((deferredFinish h t b).areas b).space.shading = silhouetteShading ∧
    ((deferredFinish h t b).areas b).space.region_3d.view_perspective = "ORTHO" := by
  simp only [deferredFinish]
  rw [updR3d_areas_self]
  rw [updR3d_areas_ne _ _ _ _ (Ne.symm hne)]
  rw [updSpace_areas_self]
  rw [updSpace_areas_ne _ _ _ _ (Ne.symm hne)]
  rw [configurePair_areas_bot _ _ _ _ hne]
  rw [configure_areas_self]
  simp [hideUIFlags, silhouetteShading]

theorem ordIns_perm (le : Nat → Nat → Bool) (a : Nat) (l : List Nat) :
    (ordIns le a l).Perm (a :: l) := by
  induction l with
  | nil => exact List.Perm.refl _
  | cons b xs ih =>
    unfold ordIns
    by_cases hle : le a b
    · simp [hle]
    · simp only [hle, if_false]
      exact (ih.cons b).trans (List.Perm.swap a b xs)

theorem insSort_perm (le : Nat → Nat → Bool) (l : List Nat) :
    (insSort le l).Perm l := by
  induction l with
  | nil => exact List.Perm.refl _
  | cons a xs ih =>
    unfold insSort
    exact (ordIns_perm le a (insSort le xs)).trans (ih.cons a)

theorem insSort_nodup (le : Nat → Nat → Bool) (l : List Nat) (hl : l.Nodup) :
    (insSort le l).Nodup := ((insSort_perm le l).nodup_iff).2 hl

theorem foldl_pick_mem (P : Nat → Nat → Prop) [DecidableRel P] (l : List Nat) (a0 : Nat) :
    l.foldl (fun best a => if P a best then a else best) a0 ∈ a0 :: l := by
  induction l generalizing a0 with
  | nil => simp
  | cons x xs ih =>
    have h2 := ih (if P x a0 then x else a0)
    simp only [List.foldl_cons]
    rcases List.mem_cons.1 h2 with h | h
    · rw [h]
      by_cases hp : P x a0 <;> simp [hp]
    · exact List.mem_cons_of_mem _ (List.mem_cons_of_mem _ h)

theorem pyMinByXFirst_mem (s : Screen) (a0 : Nat) (l : List Nat) :
    pyMinByXFirst s a0 l ∈ a0 :: l := by
  unfold pyMinByXFirst
  exact foldl_pick_mem _ l a0

theorem filter_not_contains_self (l : List Nat) :
    l.filter (fun i => !l.contains i) = [] := by
  rw [List.filter_eq_nil_iff]
  intro a ha
  simp [ha]

theorem take_two_ne (l : List Nat) (p q : Nat) (hl : l.Nodup)
    (h : l.take 2 = [p, q]) : p ≠ q := by
  have hsub : (l.take 2).Nodup := hl.sublist (List.take_sublist 2 l)
  rw [h] at hsub
  simp at hsub
  exact hsub

theorem deferredSetup_ready_shape (h : Host) (scr : Screen)
    (hr : h.deferred_raises = false) (hready : deferredReady h scr = true) :
    ∃ t b, t ≠ b ∧
      (h.dsplitPost.areas t).y ≥ (h.dsplitPost.areas b).y ∧
      deferredSetup h scr = (deferredFinish h t b, none, deferredFinishTrace h t b) := by
  unfold deferredReady at hready
  rcases hfind : findView3dArea scr with _ | aidA
  · rw [hfind] at hready; simp at hready
  rw [hfind] at hready
  simp only [Bool.and_eq_true] at hready
  obtain ⟨⟨h1, h2⟩, h3⟩ := hready
  rcases hflt : h.dsplitPost.areaIds.filter (fun i => !scr.areaIds.contains i) with
    _ | ⟨newId, rest⟩
  · rw [hflt] at h3; simp at h3
  rw [hflt] at h3
  have haidA : aidA ∈ scr.areaIds := List.mem_of_find?_eq_some hfind
  have hnewmem : newId ∈ h.dsplitPost.areaIds.filter (fun i => !scr.areaIds.contains i) := by
    rw [hflt]; exact List.mem_cons_self _ _
  have hnew : newId ∉ scr.areaIds := by
    have hp := List.of_mem_filter hnewmem
    simp at hp
    exact hp
  have hne : aidA ≠ newId := fun he => hnew (he ▸ haidA)
  have hflt2 : List.filter (fun i => !decide (i ∈ scr.areaIds)) h.dsplitPost.areaIds
      = newId :: rest := by
    simpa using hflt
  by_cases hy : (h.dsplitPost.areas aidA).y ≥ (h.dsplitPost.areas newId).y
  · simp only [if_pos hy, Bool.and_eq_true] at h3
    refine ⟨aidA, newId, hne, hy, ?_⟩
    simp [deferredSetup, hr, hfind, hflt2, h1, h2, h3.1, h3.2, hy]
  · simp only [if_neg hy, Bool.and_eq_true] at h3
    refine ⟨newId, aidA, Ne.symm hne, by omega, ?_⟩
    simp [deferredSetup, hr, hfind, hflt2, h1, h2, h3.1, h3.2, hy]

theorem splitStage3_finished_shape (h : Host) (s2 : Screen) (tH : List Ev)
    (L : Nat) (nAs : List Nat) (hnd : (nAs ++ [L]).Nodup)
    (hfin : (splitStage3 h s2 tH L nAs).1 = OpRes.FINISHED) :
    ∃ t b, t ≠ b ∧
      (s2.areas t).y ≥ (s2.areas b).y ∧
      splitStage3 h s2 tH L nAs =
        (OpRes.FINISHED, (configurePair h s2 t b).1, some (t, b),
          Ev.opAreaSplit "VERTICAL" true :: tH ++ (configurePair h s2 t b).2 ++
          [Ev.timerRegister h.timer_reg_ok2]) := by
  rcases hE : splitStage3 h s2 tH L nAs with ⟨res, scrF, pr, tr⟩
  rw [hE] at hfin
  dsimp only at hfin
  subst hfin
  unfold splitStage3 at hE
  dsimp only at hE
  split at hE
  case h_2 => simp at hE
  case h_1 p q heq =>
    have hpq : p ≠ q := by
      refine take_two_ne _ p q ?_ heq
      exact insSort_nodup _ _ (hnd.filter _)
    split at hE
    case isTrue hy =>
      split at hE
      case isFalse hwin => simp at hE
      case isTrue hwin =>
        simp only [Prod.mk.injEq] at hE
        obtain ⟨-, h1, h2, h3⟩ := hE
        subst h1; subst h2; subst h3
        exact ⟨p, q, hpq, hy, rfl⟩
    case isFalse hy =>
      split at hE
      case isFalse hwin => simp at hE
      case isTrue hwin =>
        simp only [Prod.mk.injEq] at hE
        obtain ⟨-, h1, h2, h3⟩ := hE
        subst h1; subst h2; subst h3
        exact ⟨q, p, Ne.symm hpq, by omega, rfl⟩

theorem splitStage2_finished_shape (h : Host) (s1 : Screen) (L : Nat)
    (hnodup : h.hsplitPost.areaIds.Nodup) (hL : L ∈ s1.areaIds)
    (hfin : (splitStage2 h s1 L).1 = OpRes.FINISHED) :
    ∃ t b, t ≠ b ∧
      (h.hsplitPost.areas t).y ≥ (h.hsplitPost.areas b).y ∧
      splitStage2 h s1 L =
        (OpRes.FINISHED, (configurePair h h.hsplitPost t b).1, some (t, b),
          Ev.opAreaSplit "VERTICAL" true :: Ev.opAreaSplit "HORIZONTAL" true ::
          (configurePair h h.hsplitPost t b).2 ++ [Ev.timerRegister h.timer_reg_ok2]) := by
  rcases hE : splitStage2 h s1 L with ⟨res, scrF, pr, tr⟩
  rw [hE] at hfin
  dsimp only at hfin
  subst hfin
  unfold splitStage2 at hE
  dsimp only at hE
  split at hE
  · simp at hE
  · rename_i hc
    split at hE
    · simp at hE
    · rename_i m0 ms hm
      by_cases hds : hasWindowRegion (s1.areas L) = true
      · simp only [if_pos hds] at hE hm
        have hmnd : (m0 :: ms).Nodup := by
          rw [← hm]; exact hnodup.filter _
        have hLnot : L ∉ m0 :: ms := by
          intro hmem
          rw [← hm] at hmem
          have hpL := List.of_mem_filter hmem
          simp at hpL
          exact hpL hL
        have hnd : ((m0 :: ms) ++ [L]).Nodup := by
          rw [List.nodup_append]
          refine ⟨hmnd, List.nodup_singleton L, ?_⟩
          intro a ha hb
          simp at hb
          subst hb
          exact hLnot ha
        have hfin3 : (splitStage3 h h.hsplitPost [Ev.opAreaSplit "HORIZONTAL" true] L
            (m0 :: ms)).1 = OpRes.FINISHED := by rw [hE]
        obtain ⟨t, b, htb, hy, hEq⟩ :=
          splitStage3_finished_shape h _ _ L (m0 :: ms) hnd hfin3
        refine ⟨t, b, htb, hy, ?_⟩
        rw [← hE, hEq]
        rfl
      · simp only [if_neg hds] at hm
        rw [filter_not_contains_self] at hm
        simp at hm

theorem splitExecute_finished_shape (h : Host) (scr : Screen) (aid : Nat)
    (hnodup : h.hsplitPost.areaIds.Nodup)
    (haid : aid ∈ h.vsplitPost.areaIds)
    (hfin : (splitExecute h scr aid).1 = OpRes.FINISHED) :
    ∃ t b, t ≠ b ∧
      (h.hsplitPost.areas t).y ≥ (h.hsplitPost.areas b).y ∧
      splitExecute h scr aid =
        (OpRes.FINISHED, (configurePair h h.hsplitPost t b).1, some (t, b),
          Ev.opAreaSplit "VERTICAL" true :: Ev.opAreaSplit "HORIZONTAL" true ::
          (configurePair h h.hsplitPost t b).2 ++ [Ev.timerRegister h.timer_reg_ok2]) := by
  rcases hE : splitExecute h scr aid with ⟨res, scrF, pr, tr⟩
  rw [hE] at hfin
  dsimp only at hfin
  subst hfin
  unfold splitExecute at hE
  dsimp only at hE
  split at hE
  · simp at hE
  · split at hE
    · rename_i hvs
      split at hE
      · simp at hE
      · rename_i n0 ns hm
        have hL : (if (h.vsplitPost.areas aid).x ≤
              (h.vsplitPost.areas (pyMaxByX h.vsplitPost n0 ns)).x then aid
              else pyMinByXFirst h.vsplitPost aid (n0 :: ns)) ∈ h.vsplitPost.areaIds := by
          split
          · exact haid
          · have hmm := pyMinByXFirst_mem h.vsplitPost aid (n0 :: ns)
            rcases List.mem_cons.1 hmm with hmm2 | hmm2
            · rw [hmm2]; exact haid
            · have hmm3 : pyMinByXFirst h.vsplitPost aid (n0 :: ns) ∈
                  h.vsplitPost.areaIds.filter (fun i => !scr.areaIds.contains i) := by
                rw [hm]; exact hmm2
              exact List.mem_of_mem_filter hmm3
        have hfin2 : (splitStage2 h h.vsplitPost
            (if (h.vsplitPost.areas aid).x ≤
              (h.vsplitPost.areas (pyMaxByX h.vsplitPost n0 ns)).x then aid
              else pyMinByXFirst h.vsplitPost aid (n0 :: ns))).1 = OpRes.FINISHED := by
          rw [hE]
        obtain ⟨t, b, htb, hy, hEq⟩ := splitStage2_finished_shape h _ _ hnodup hL hfin2
        refine ⟨t, b, htb, hy, ?_⟩
        rw [← hE, hEq]
    · simp at hE

theorem configurePair_trace_all (P : Ev → Bool) (h : Host) (s : Screen) (t b : Nat)
    (pConf : ∀ a x, P (Ev.configureCall a x) = true)
    (pSet : ∀ a f, P (Ev.setAttr a f) = true)
    (pAxis : ∀ a x ok, P (Ev.opViewAxis a x ok) = true)
    (pSel : ∀ a ok, P (Ev.opViewSelected a ok) = true) :
    ((configurePair h s t b).2).all P = true := by
  simp [configurePair_trace, configure_trace, List.all_append,
    pConf, pSet, pAxis, pSel]

theorem splitStage3_trace_all (P : Ev → Bool) (h : Host) (s2 : Screen) (tH : List Ev)
    (L : Nat) (nAs : List Nat)
    (pSplit : ∀ d ok, P (Ev.opAreaSplit d ok) = true)
    (pTimer : ∀ ok, P (Ev.timerRegister ok) = true)
    (pReport : ∀ m, P (Ev.report m) = true)
    (pConf : ∀ a x, P (Ev.configureCall a x) = true)
    (pSet : ∀ a f, P (Ev.setAttr a f) = true)
    (pAxis : ∀ a x ok, P (Ev.opViewAxis a x ok) = true)
    (pSel : ∀ a ok, P (Ev.opViewSelected a ok) = true)
    (htH : tH.all P = true) :
    ((splitStage3 h s2 tH L nAs).2.2.2).all P = true := by
  unfold splitStage3
  dsimp only
  repeat' split
  all_goals
    simp [List.all_append, configurePair_trace, configure_trace,
      pSplit, pTimer, pReport, pConf, pSet, pAxis, pSel, htH]

theorem splitStage2_trace_all (P : Ev → Bool) (h : Host) (s1 : Screen) (L : Nat)
    (pSplit : ∀ d ok, P (Ev.opAreaSplit d ok) = true)
    (pTimer : ∀ ok, P (Ev.timerRegister ok) = true)
    (pReport : ∀ m, P (Ev.report m) = true)
    (pConf : ∀ a x, P (Ev.configureCall a x) = true)
    (pSet : ∀ a f, P (Ev.setAttr a f) = true)
    (pAxis : ∀ a x ok, P (Ev.opViewAxis a x ok) = true)
    (pSel : ∀ a ok, P (Ev.opViewSelected a ok) = true) :
    ((splitStage2 h s1 L).2.2.2).all P = true := by
  unfold splitStage2
  dsimp only
  repeat' split
  all_goals
    first
    | (refine splitStage3_trace_all P h _ _ L _ pSplit pTimer pReport pConf pSet pAxis pSel ?_
       simp [pSplit])
    | simp [List.all_append, pSplit, pTimer, pReport, pConf, pSet, pAxis, pSel]

theorem splitExecute_trace_all (P : Ev → Bool) (h : Host) (scr : Screen) (aid : Nat)
    (pSplit : ∀ d ok, P (Ev.opAreaSplit d ok) = true)
    (pTimer : ∀ ok, P (Ev.timerRegister ok) = true)
    (pReport : ∀ m, P (Ev.report m) = true)
    (pConf : ∀ a x, P (Ev.configureCall a x) = true)
    (pSet : ∀ a f, P (Ev.setAttr a f) = true)
    (pAxis : ∀ a x ok, P (Ev.opViewAxis a x ok) = true)
    (pSel : ∀ a ok, P (Ev.opViewSelected a ok) = true) :
    ((splitExecute h scr aid).2.2.2).all P = true := by
  unfold splitExecute
  dsimp only
  repeat' split
  all_goals
    first
    | exact splitStage2_trace_all P h _ _ pSplit pTimer pReport pConf pSet pAxis pSel
    | simp [List.all_append, pSplit, pTimer, pReport, pConf, pSet, pAxis, pSel]

theorem deferredSetup_trace_all (P : Ev → Bool) (h : Host) (scr : Screen)
    (pSplit : ∀ d ok, P (Ev.opAreaSplit d ok) = true)
    (pConf : ∀ a x, P (Ev.configureCall a x) = true)
    (pSet : ∀ a f, P (Ev.setAttr a f) = true)
    (pAxis : ∀ a x ok, P (Ev.opViewAxis a x ok) = true)
    (pSel : ∀ a ok, P (Ev.opViewSelected a ok) = true)
    (pSwall : P Ev.swallowed = true) :
    ((deferredSetup h scr).2.2).all P = true := by
  unfold deferredSetup
  dsimp only
  repeat' split
  all_goals
    simp [deferredFinishTrace, List.all_append, configurePair_trace, configure_trace,
      pSplit, pConf, pSet, pAxis, pSel, pSwall]

theorem postFixCb_trace_all (P : Ev → Bool) (h : Host) (scr : Screen) (t b : Nat)
    (pSet : ∀ a f, P (Ev.setAttr a f) = true)
    (pAxis : ∀ a x ok, P (Ev.opViewAxis a x ok) = true)
    (pSwall : P Ev.swallowed = true) :
    ((postFixCb h scr t b).2.2).all P = true := by
  unfold postFixCb
  dsimp only
  repeat' split
  all_goals
    simp [List.all_append, applyViewAxis_trace, pSet, pAxis, pSwall]

theorem dualExecute_trace_all (P : Ev → Bool) (h : Host) (ow : Window)
    (pWin : ∀ ok, P (Ev.opWindowNew ok) = true)
    (pWAttr : ∀ f, P (Ev.setWinAttr f) = true)
    (pTimer : ∀ ok, P (Ev.timerRegister ok) = true)
    (pReport : ∀ m, P (Ev.report m) = true) :
    ((dualExecute h ow).2.2).all P = true := by
  unfold dualExecute
  dsimp only
  split <;> simp [pWin, pWAttr, pTimer, pReport]

theorem dualRun_trace_all (P : Ev → Bool) (h : Host) (ow : Window)
    (pWin : ∀ ok, P (Ev.opWindowNew ok) = true)
    (pWAttr : ∀ f, P (Ev.setWinAttr f) = true)
    (pTimer : ∀ ok, P (Ev.timerRegister ok) = true)
    (pReport : ∀ m, P (Ev.report m) = true)
    (pSplit : ∀ d ok, P (Ev.opAreaSplit d ok) = true)
    (pConf : ∀ a x, P (Ev.configureCall a x) = true)
    (pSet : ∀ a f, P (Ev.setAttr a f) = true)
    (pAxis : ∀ a x ok, P (Ev.opViewAxis a x ok) = true)
    (pSel : ∀ a ok, P (Ev.opViewSelected a ok) = true)
    (pSwall : P Ev.swallowed = true) :
    ((dualRun h ow).2).all P = true := by
  unfold dualRun
  dsimp only
  repeat' split
  all_goals
    first
    | exact dualExecute_trace_all P h ow pWin pWAttr pTimer pReport
    | (rw [List.all_append]
       rw [dualExecute_trace_all P h ow pWin pWAttr pTimer pReport]
       rw [deferredSetup_trace_all P h _ pSplit pConf pSet pAxis pSel pSwall]
       rfl)

theorem postFixCb_ret_none (h : Host) (scr : Screen) (t b : Nat) :
    (postFixCb h scr t b).2.1 = none := by
  unfold postFixCb
  split <;> rfl

theorem deferredSetup_not_ready (h : Host) (scr : Screen)
    (hr : h.deferred_raises = false) (hready : deferredReady h scr = false) :
    (deferredSetup h scr).2.1 = some (1 / 20) := by
  unfold deferredReady at hready
  rcases hfind : findView3dArea scr with _ | aidA
  · simp [deferredSetup, hr, hfind]
  rw [hfind] at hready
  by_cases h1 : hasWindowRegion (scr.areas aidA) = true
  case neg => simp [deferredSetup, hr, hfind, h1]
  by_cases h2 : (h.dsplit_ok || h.dsplit_cur_ok) = true
  case neg => simp [deferredSetup, hr, hfind, h1, h2]
  rcases hflt : h.dsplitPost.areaIds.filter (fun i => !scr.areaIds.contains i) with
    _ | ⟨newId, rest⟩
  · have hflt2 : List.filter (fun i => !decide (i ∈ scr.areaIds)) h.dsplitPost.areaIds
        = [] := by simpa using hflt
    simp [deferredSetup, hr, hfind, h1, h2, hflt2]
  · have hflt2 : List.filter (fun i => !decide (i ∈ scr.areaIds)) h.dsplitPost.areaIds
        = newId :: rest := by simpa using hflt
    rw [hflt] at hready
    simp only [h1, h2, Bool.true_and] at hready
    by_cases hy : (h.dsplitPost.areas aidA).y ≥ (h.dsplitPost.areas newId).y
    · simp only [if_pos hy] at hready
      simp [deferredSetup, hr, hfind, h1, h2, hflt2, hy, hready]
    · simp only [if_neg hy] at hready
      simp [deferredSetup, hr, hfind, h1, h2, hflt2, hy, hready]

theorem deferredSetup_outcome (h : Host) (scr : Screen) :
    (deferredSetup h scr).2.1 = none ∨ (deferredSetup h scr).2.1 = some (1 / 20) := by
  by_cases hr : h.deferred_raises = true
  · left; simp [deferredSetup, hr]
  · have hr2 : h.deferred_raises = false := by simpa using hr
    by_cases hready : deferredReady h scr = true
    · obtain ⟨t, b, _, _, hEq⟩ := deferredSetup_ready_shape h scr hr2 hready
      left; rw [hEq]
    · right
      exact deferredSetup_not_ready h scr hr2 (by simpa using hready)

theorem deferredSetup_raises (h : Host) (scr : Screen)
    (hr : h.deferred_raises = true) :
    deferredSetup h scr = (scr, none, [Ev.swallowed]) := by
  simp [deferredSetup, hr]

theorem splitStage3_trace_head (h : Host) (s2 : Screen) (tH : List Ev)
    (L : Nat) (nAs : List Nat) :
    ((splitStage3 h s2 tH L nAs).2.2.2).head? = some (Ev.opAreaSplit "VERTICAL" true) := by
  unfold splitStage3
  dsimp only
  repeat' split
  all_goals rfl

theorem splitStage2_trace_head (h : Host) (s1 : Screen) (L : Nat) :
    ((splitStage2 h s1 L).2.2.2).head? = some (Ev.opAreaSplit "VERTICAL" true) := by
  unfold splitStage2
  dsimp only
  repeat' split
  all_goals first
  | rfl
  | exact splitStage3_trace_head h _ _ L _

theorem splitExecute_fin_vsplit (h : Host) (scr : Screen) (aid : Nat)
    (hfin : (splitExecute h scr aid).1 = OpRes.FINISHED) :
    Ev.opAreaSplit "VERTICAL" true ∈ (splitExecute h scr aid).2.2.2 := by
  rcases hE : splitExecute h scr aid with ⟨res, scrF, pr, tr⟩
  rw [hE] at hfin
  dsimp only at hfin
  subst hfin
  dsimp only
  unfold splitExecute at hE
  dsimp only at hE
  split at hE
  · simp at hE
  · split at hE
    · split at hE
      · simp at hE
      · rename_i n0 ns hm
        have hh := splitStage2_trace_head h h.vsplitPost
          (if (h.vsplitPost.areas aid).x ≤
              (h.vsplitPost.areas (pyMaxByX h.vsplitPost n0 ns)).x then aid
            else pyMinByXFirst h.vsplitPost aid (n0 :: ns))
        rw [hE] at hh
        dsimp only at hh
        rcases tr with _ | ⟨e, rest⟩
        · simp at hh
        · simp only [List.head?_cons, Option.some.injEq] at hh
          rw [← hh]
          exact List.mem_cons_self _ _
    · simp at hE

theorem dualRun_trace_head (h : Host) (ow : Window) :
    (dualRun h ow).2.head? = some (Ev.opWindowNew h.window_new_ok) := by
  cases hok : h.window_new_ok <;> by_cases ht : h.timer_reg_ok = true <;>
    simp [dualRun, dualExecute, hok, ht]

theorem dualExecute_no_configure (h : Host) (ow : Window) :
    configureCalls (dualExecute h ow).2.2 = [] := by
  cases hok : h.window_new_ok <;> simp [dualExecute, hok, configureCalls]

theorem dualExecute_cancelled_iff (h : Host) (ow : Window) :
    (dualExecute h ow).1 = OpRes.CANCELLED ↔ h.window_new_ok = false := by
  cases hok : h.window_new_ok <;> simp [dualExecute, hok]

theorem dualRun_res (h : Host) (ow : Window) :
    (dualRun h ow).1 = (dualExecute h ow).1 := by
  unfold dualRun
  dsimp only
  repeat' split
  all_goals rfl

theorem dualExecute_fin_no_report (h : Host) (ow : Window)
    (hok : h.window_new_ok = true) :
    (dualExecute h ow).1 = OpRes.FINISHED ∧
    ((dualExecute h ow).2.2).all (fun e => !isReport e) = true := by
  simp [dualExecute, hok, isReport]

theorem dualExecute_window (h : Host) (ow : Window) (hok : h.window_new_ok = true) :
    ∃ nw, (dualExecute h ow).2.1 = some nw ∧
      nw.width = some (max 480 (ow.width.getD 1600 / 4)) ∧
      nw.height = some (max 360 (ow.height.getD 900 / 4)) ∧
      nw.x = some (ow.x.getD 100 + 80) ∧
      nw.y = some (ow.y.getD 100 - 80) ∧
      nw.screen.show_statusbar = false := by
  simp only [dualExecute, hok]
  exact ⟨_, rfl, rfl, rfl, rfl, rfl, rfl⟩

/-- Claim C1: in every successful run of either operator — `_deferred_setup`
completing for the dual-window operator, or `execute` returning `FINISHED`
for the split-current operator — exactly two `VIEW_3D` areas are configured,
one with the `FRONT` preset and one with the `RIGHT` preset, and
`_apply_view_axis` writes `region_3d.view_perspective = 'ORTHO'` before the
axis operator call, so both resulting views are orthographic. -/
theorem claim_C1 :
    (∀ (h : Host) (s : Screen) (i : Nat) (ax : String),
      (applyViewAxis h s i ax).2 =
        [Ev.setAttr i "view_perspective", Ev.opViewAxis i ax h.axis_ops_ok] ∧
      ((applyViewAxis h s i ax).1.areas i).space.region_3d.view_perspective = "ORTHO") ∧
    (∀ (h : Host) (scr : Screen), h.deferred_raises = false → deferredReady h scr = true →
      ∃ t b, t ≠ b ∧
        configureCalls (deferredSetup h scr).2.2 = [(t, "FRONT"), (b, "RIGHT")] ∧
        ((deferredSetup h scr).1.areas t).type = "VIEW_3D" ∧
        ((deferredSetup h scr).1.areas b).type = "VIEW_3D" ∧
        ((deferredSetup h scr).1.areas t).space.region_3d.view_perspective = "ORTHO" ∧
        ((deferredSetup h scr).1.areas b).space.region_3d.view_perspective = "ORTHO") ∧
    (∀ (h : Host) (scr : Screen) (aid : Nat),
      h.hsplitPost.areaIds.Nodup → aid ∈ h.vsplitPost.areaIds →
      (splitExecute h scr aid).1 = OpRes.FINISHED →
      ∃ t b, t ≠ b ∧
        configureCalls (splitExecute h scr aid).2.2.2 = [(t, "FRONT"), (b, "RIGHT")] ∧
        ((splitExecute h scr aid).2.1.areas t).type = "VIEW_3D" ∧
        ((splitExecute h scr aid).2.1.areas b).type = "VIEW_3D" ∧
        ((splitExecute h scr aid).2.1.areas t).space.region_3d.view_perspective = "ORTHO" ∧
        ((splitExecute h scr aid).2.1.areas b).space.region_3d.view_perspective = "ORTHO") := by
  refine ⟨?_, ?_, ?_⟩
  · intro h s i ax
    refine ⟨rfl, ?_⟩
    rw [applyViewAxis_areas_self]
  · intro h scr hr hready
    obtain ⟨t, b, htb, hy, hEq⟩ := deferredSetup_ready_shape h scr hr hready
    refine ⟨t, b, htb, ?_, ?_, ?_, ?_, ?_⟩ <;> rw [hEq]
    · rfl
    · exact (deferredFinish_top h t b htb).1
    · exact (deferredFinish_bot h t b htb).1
    · exact (deferredFinish_top h t b htb).2.2
    · exact (deferredFinish_bot h t b htb).2.2
  · intro h scr aid hnodup haid hfin
    obtain ⟨t, b, htb, hy, hEq⟩ := splitExecute_finished_shape h scr aid hnodup haid hfin
    refine ⟨t, b, htb, ?_, ?_, ?_, ?_, ?_⟩ <;> rw [hEq]
    · rfl
    · exact (configurePair_top_silhouette h _ t b htb).1
    · exact (configurePair_bot_silhouette h _ t b htb).1
    · exact (configurePair_top_silhouette h _ t b htb).2.2
    · exact (configurePair_bot_silhouette h _ t b htb).2.2

/-- Witness for C1 on the concrete success host `hS`. -/
theorem claim_C1_witness :
    hS.deferred_raises = false ∧ deferredReady hS scrNew = true ∧
    (∃ t b, t ≠ b ∧
      configureCalls (deferredSetup hS scrNew).2.2 = [(t, "FRONT"), (b, "RIGHT")] ∧
      ((deferredSetup hS scrNew).1.areas t).type = "VIEW_3D" ∧
      ((deferredSetup hS scrNew).1.areas b).type = "VIEW_3D" ∧
      ((deferredSetup hS scrNew).1.areas t).space.region_3d.view_perspective = "ORTHO" ∧
      ((deferredSetup hS scrNew).1.areas b).space.region_3d.view_perspective = "ORTHO") :=
  ⟨rfl, by decide, claim_C1.2.1 hS scrNew rfl (by decide)⟩

/-- Claim C2: the menu exposes exactly the two operators; the dual operator
calls `wm.window_new` as its very first host event, before any
`_configure_silhouette_area` happens, while the split-current operator never
creates a window and, on success, splits the current area via
`screen.area_split`. -/
theorem claim_C2 :
    silhouetteMenuItems =
      [ "view3d.open_silhouette_split_current", "view3d.open_silhouette_view_dual" ] ∧
    silhouetteMenuItems.length = 2 ∧
    drawInViewMenu "OBJECT" = [ "VIEW3D_MT_silhouette_menu" ] ∧
    (∀ (h : Host) (ow : Window),
      (dualRun h ow).2.head? = some (Ev.opWindowNew h.window_new_ok)) ∧
    (∀ (h : Host) (ow : Window), configureCalls (dualExecute h ow).2.2 = []) ∧
    (∀ (h : Host) (scr : Screen) (aid : Nat),
      ((splitExecute h scr aid).2.2.2).all (fun e => !isWindowNew e) = true) ∧
    (∀ (h : Host) (scr : Screen) (t b : Nat),
      ((postFixCb h scr t b).2.2).all (fun e => !isWindowNew e) = true) ∧
    (∀ (h : Host) (scr : Screen) (aid : Nat),
      (splitExecute h scr aid).1 = OpRes.FINISHED →
      Ev.opAreaSplit "VERTICAL" true ∈ (splitExecute h scr aid).2.2.2) := by
  refine ⟨rfl, rfl, rfl, dualRun_trace_head, dualExecute_no_configure, ?_, ?_, ?_⟩
  · intro h scr aid
    exact splitExecute_trace_all _ h scr aid (fun _ _ => rfl) (fun _ => rfl)
      (fun _ => rfl) (fun _ _ => rfl) (fun _ _ => rfl) (fun _ _ _ => rfl) (fun _ _ => rfl)
  · intro h scr t b
    exact postFixCb_trace_all _ h scr t b (fun _ _ => rfl) (fun _ _ _ => rfl) rfl
  · exact splitExecute_fin_vsplit

/-- Witness for C2: a finished split run on the concrete host. -/
theorem claim_C2_witness :
    (splitExecute hS scrNew 0).1 = OpRes.FINISHED ∧
    Ev.opAreaSplit "VERTICAL" true ∈ (splitExecute hS scrNew 0).2.2.2 :=
  ⟨rfl, claim_C2.2.2.2.2.2.2.2 hS scrNew 0 rfl⟩

/-- Claim C3: each operator's poll is exactly the stated condition on the
current mode, active object and (for split-current) the current `VIEW_3D`
area, and every configured view is framed on the selection by a
`view3d.view_selected` call, in particular for both areas of a successful
run of either operator. -/
theorem claim_C3 :
    (∀ c : Ctx, pollDual c = true ↔ (c.mode = "OBJECT" ∧ c.activeObject = true)) ∧
    (∀ c : Ctx, pollSplit c = true ↔
      (c.mode = "OBJECT" ∧
       (∃ i, c.areaId = some i ∧ (c.screen.areas i).type = "VIEW_3D") ∧
       c.activeObject = true)) ∧
    (∀ (h : Host) (s : Screen) (i : Nat) (ax : String),
      Ev.opViewSelected i h.view_selected_ok ∈ (configureSilhouetteArea h s i ax).2) ∧
    (∀ (h : Host) (scr : Screen), h.deferred_raises = false → deferredReady h scr = true →
      ∃ t b, t ≠ b ∧
        Ev.opViewSelected t h.view_selected_ok ∈ (deferredSetup h scr).2.2 ∧
        Ev.opViewSelected b h.view_selected_ok ∈ (deferredSetup h scr).2.2) ∧
    (∀ (h : Host) (scr : Screen) (aid : Nat),
      h.hsplitPost.areaIds.Nodup → aid ∈ h.vsplitPost.areaIds →
      (splitExecute h scr aid).1 = OpRes.FINISHED →
      ∃ t b, t ≠ b ∧
        Ev.opViewSelected t h.view_selected_ok ∈ (splitExecute h scr aid).2.2.2 ∧
        Ev.opViewSelected b h.view_selected_ok ∈ (splitExecute h scr aid).2.2.2) := by
  refine ⟨?_, ?_, ?_, ?_, ?_⟩
  · intro c
    simp [pollDual, Bool.and_eq_true]
  · intro c
    rcases harea : c.areaId with _ | i <;>
      simp [pollSplit, harea, Bool.and_eq_true, and_assoc]
  · intro h s i ax
    simp [configure_trace]
  · intro h scr hr hready
    obtain ⟨t, b, htb, hy, hEq⟩ := deferredSetup_ready_shape h scr hr hready
    refine ⟨t, b, htb, ?_, ?_⟩ <;> rw [hEq] <;>
      simp [deferredFinishTrace, configurePair_trace, configure_trace]
  · intro h scr aid hnodup haid hfin
    obtain ⟨t, b, htb, hy, hEq⟩ := splitExecute_finished_shape h scr aid hnodup haid hfin
    refine ⟨t, b, htb, ?_, ?_⟩ <;> rw [hEq] <;>
      simp [configurePair_trace, configure_trace]

/-- Witness for C3 on the concrete context and success host. -/
theorem claim_C3_witness :
    pollDual ctxS = true ∧ pollSplit ctxS = true ∧
    hS.deferred_raises = false ∧ deferredReady hS scrNew = true ∧
    (∃ t b, t ≠ b ∧
      Ev.opViewSelected t hS.view_selected_ok ∈ (deferredSetup hS scrNew).2.2 ∧
      Ev.opViewSelected b hS.view_selected_ok ∈ (deferredSetup hS scrNew).2.2) :=
  ⟨(claim_C3.1 ctxS).mpr ⟨rfl, rfl⟩,
   (claim_C3.2.1 ctxS).mpr ⟨rfl, ⟨0, rfl, rfl⟩, rfl⟩,
   rfl, by decide,
   claim_C3.2.2.2.1 hS scrNew rfl (by decide)⟩

/-- Claim C4: retries happen only in the window-creation path. Absent an
unexpected exception, one `_deferred_setup` invocation returns `0.05`
exactly when its readiness checks (the new window's `VIEW_3D` area, its
`WINDOW` regions, or the horizontal split result) fail; its only return
values are `None` and `0.05`; once both areas are configured it returns
`None`; and `_post_fix` returns `None` on every path, never rescheduling. -/
theorem claim_C4 :
    (∀ (h : Host) (scr : Screen), h.deferred_raises = false →
      (((deferredSetup h scr).2.1 = some (1 / 20)) ↔ deferredReady h scr = false)) ∧
    (∀ (h : Host) (scr : Screen),
      (deferredSetup h scr).2.1 = none ∨ (deferredSetup h scr).2.1 = some (1 / 20)) ∧
    (∀ (h : Host) (scr : Screen), h.deferred_raises = false → deferredReady h scr = true →
      (deferredSetup h scr).2.1 = none) ∧
    (∀ (h : Host) (scr : Screen) (t b : Nat), (postFixCb h scr t b).2.1 = none) := by
  have hnone : ∀ (h : Host) (scr : Screen), h.deferred_raises = false →
      deferredReady h scr = true → (deferredSetup h scr).2.1 = none := by
    intro h scr hr hready
    obtain ⟨t, b, _, _, hEq⟩ := deferredSetup_ready_shape h scr hr hready
    rw [hEq]
  refine ⟨?_, ?_, hnone, postFixCb_ret_none⟩
  · intro h scr hr
    constructor
    · intro hsome
      by_cases hready : deferredReady h scr = true
      · rw [hnone h scr hr hready] at hsome
        simp at hsome
      · simpa using hready
    · intro hready
      exact deferredSetup_not_ready h scr hr hready
  · intro h scr
    exact deferredSetup_outcome h scr

/-- Witness for C4 on the concrete success host. -/
theorem claim_C4_witness :
    hS.deferred_raises = false ∧ deferredReady hS scrNew = true ∧
    (((deferredSetup hS scrNew).2.1 = some (1 / 20)) ↔ deferredReady hS scrNew = false) ∧
    (deferredSetup hS scrNew).2.1 = none :=
  ⟨rfl, by decide, claim_C4.1 hS scrNew rfl, claim_C4.2.2.1 hS scrNew rfl (by decide)⟩

/-- Claim C5: `_configure_silhouette_area` sets the shading to `SOLID` /
`FLAT` / `SINGLE` with black single colour and white viewport background,
switches off the header, tool header, toolbar, sidebar, gizmos and
overlays, performs no rendering of its own, and leaves every other area
untouched. -/
theorem claim_C5 :
    ∀ (h : Host) (s : Screen) (i : Nat) (ax : String),
      ((configureSilhouetteArea h s i ax).1.areas i).space.shading.type = "SOLID" ∧
      ((configureSilhouetteArea h s i ax).1.areas i).space.shading.light = "FLAT" ∧
      ((configureSilhouetteArea h s i ax).1.areas i).space.shading.color_type = "SINGLE" ∧
      ((configureSilhouetteArea h s i ax).1.areas i).space.shading.single_color = (0, 0, 0) ∧
      ((configureSilhouetteArea h s i ax).1.areas i).space.shading.background_type = "VIEWPORT" ∧
      ((configureSilhouetteArea h s i ax).1.areas i).space.shading.background_color = (1, 1, 1) ∧
      ((configureSilhouetteArea h s i ax).1.areas i).space.show_region_header = false ∧
      ((configureSilhouetteArea h s i ax).1.areas i).space.show_region_tool_header = false ∧
      ((configureSilhouetteArea h s i ax).1.areas i).space.show_region_toolbar = false ∧
      ((configureSilhouetteArea h s i ax).1.areas i).space.show_region_ui = false ∧
      ((configureSilhouetteArea h s i ax).1.areas i).space.show_gizmo = false ∧
      ((configureSilhouetteArea h s i ax).1.areas i).space.show_gizmo_navigate = false ∧
      ((configureSilhouetteArea h s i ax).1.areas i).space.overlay.show_overlays = false ∧
      ((configureSilhouetteArea h s i ax).2).all (fun e => !isRender e) = true ∧
      (∀ j, j ≠ i → (configureSilhouetteArea h s i ax).1.areas j = s.areas j) := by
  intro h s i ax
  rw [configure_areas_self]
  refine ⟨rfl, rfl, rfl, rfl, rfl, rfl, rfl, rfl, rfl, rfl, rfl, rfl, rfl, ?_, ?_⟩
  · simp [configure_trace, isRender]
  · intro j hj
    exact configure_areas_ne h s i j ax hj

/-- Witness for C5: a foreign area is untouched on the concrete host. -/
theorem claim_C5_witness :
    (1 : Nat) ≠ 0 ∧
    (configureSilhouetteArea hS scrNew 0 "FRONT").1.areas 1 = scrNew.areas 1 :=
  ⟨by decide, (claim_C5 hS scrNew 0 "FRONT").2.2.2.2.2.2.2.2.2.2.2.2.2.2 1 (by decide)⟩

/-- Claim C6: after a successful `wm.window_new`, the new window's width is
`max(480, floor(0.25 * original width))`, its height
`max(360, floor(0.25 * original height))`, and its position the original x
plus 80 and y minus 80, with the `getattr` defaults 1600x900 and (100, 100)
when the original window lacks those attributes. -/
theorem claim_C6 :
    ∀ (h : Host) (ow : Window), h.window_new_ok = true →
      ∃ nw, (dualExecute h ow).2.1 = some nw ∧
        nw.width = some (max 480 (ow.width.getD 1600 / 4)) ∧
        nw.height = some (max 360 (ow.height.getD 900 / 4)) ∧
        nw.x = some (ow.x.getD 100 + 80) ∧
        nw.y = some (ow.y.getD 100 - 80) ∧
        nw.screen.show_statusbar = false :=
  dualExecute_window

/-- Witness for C6 on the concrete original window. -/
theorem claim_C6_witness :
    hS.window_new_ok = true ∧
    (∃ nw, (dualExecute hS winS).2.1 = some nw ∧
      nw.width = some (max 480 (winS.width.getD 1600 / 4)) ∧
      nw.height = some (max 360 (winS.height.getD 900 / 4)) ∧
      nw.x = some (winS.x.getD 100 + 80) ∧
      nw.y = some (winS.y.getD 100 - 80) ∧
      nw.screen.show_statusbar = false) :=
  ⟨rfl, claim_C6 hS winS rfl⟩

/-- Claim C7: no code path of either operator, the helper functions or the
timer callbacks writes state outside the host's own window/scene data: every
event of every trace is host-scoped, and in particular no `externalWrite`
event (file, preference store, or other external state) ever occurs. -/
theorem claim_C7 :
    (∀ (h : Host) (ow : Window), hostScopedTrace (dualRun h ow).2 = true) ∧
    (∀ (h : Host) (scr : Screen), hostScopedTrace (deferredSetup h scr).2.2 = true) ∧
    (∀ (h : Host) (scr : Screen) (aid : Nat),
      hostScopedTrace (splitExecute h scr aid).2.2.2 = true) ∧
    (∀ (h : Host) (scr : Screen) (t b : Nat),
      hostScopedTrace (postFixCb h scr t b).2.2 = true) := by
  refine ⟨?_, ?_, ?_, ?_⟩
  · intro h ow
    exact dualRun_trace_all _ h ow (fun _ => rfl) (fun _ => rfl) (fun _ => rfl)
      (fun _ => rfl) (fun _ _ => rfl) (fun _ _ => rfl) (fun _ _ => rfl)
      (fun _ _ _ => rfl) (fun _ _ => rfl) rfl
  · intro h scr
    exact deferredSetup_trace_all _ h scr (fun _ _ => rfl) (fun _ _ => rfl)
      (fun _ _ => rfl) (fun _ _ _ => rfl) (fun _ _ => rfl) rfl
  · intro h scr aid
    exact splitExecute_trace_all _ h scr aid (fun _ _ => rfl) (fun _ => rfl)
      (fun _ => rfl) (fun _ _ => rfl) (fun _ _ => rfl) (fun _ _ _ => rfl) (fun _ _ => rfl)
  · intro h scr t b
    exact postFixCb_trace_all _ h scr t b (fun _ _ => rfl) (fun _ _ _ => rfl) rfl

/-- Claim C8: the dual operator's `execute` returns `CANCELLED` exactly when
`wm.window_new` raises; otherwise it returns `FINISHED` without reporting
any error, regardless of what the deferred setup later does; an exception
inside `_deferred_setup` is swallowed (returning `None`, no report event),
and a `FINISHED` run with a failed timer registration configures no views at
all. -/
theorem claim_C8 :
    (∀ (h : Host) (ow : Window),
      ((dualExecute h ow).1 = OpRes.CANCELLED ↔ h.window_new_ok = false)) ∧
    (∀ (h : Host) (ow : Window), (dualRun h ow).1 = (dualExecute h ow).1) ∧
    (∀ (h : Host) (ow : Window), h.window_new_ok = true →
      (dualExecute h ow).1 = OpRes.FINISHED ∧
      ((dualExecute h ow).2.2).all (fun e => !isReport e) = true) ∧
    (∀ (h : Host) (scr : Screen), h.deferred_raises = true →
      deferredSetup h scr = (scr, none, [Ev.swallowed])) ∧
    (∀ (h : Host) (scr : Screen),
      ((deferredSetup h scr).2.2).all (fun e => !isReport e) = true) ∧
    ((dualRun hS2 winS).1 = OpRes.FINISHED ∧ configureCalls (dualRun hS2 winS).2 = []) := by
  refine ⟨dualExecute_cancelled_iff, dualRun_res, dualExecute_fin_no_report,
    deferredSetup_raises, ?_, rfl, rfl⟩
  intro h scr
  exact deferredSetup_trace_all _ h scr (fun _ _ => rfl) (fun _ _ => rfl)
    (fun _ _ => rfl) (fun _ _ _ => rfl) (fun _ _ => rfl) rfl

/-- Witness for C8 on the concrete hosts. -/
theorem claim_C8_witness :
    hS.window_new_ok = true ∧
    ((dualExecute hS winS).1 = OpRes.FINISHED ∧
      ((dualExecute hS winS).2.2).all (fun e => !isReport e) = true) ∧
    hSR.deferred_raises = true ∧
    deferredSetup hSR scrNew = (scrNew, none, [Ev.swallowed]) :=
  ⟨rfl, claim_C8.2.2.1 hS winS rfl, rfl, claim_C8.2.2.2.1 hSR scrNew rfl⟩

/-- Claim C9: in both operators the two configured areas are ordered by `y`
— the area with the greater-or-equal `y` becomes the top — and the top area
receives `FRONT` while the bottom area receives `RIGHT`. -/
theorem claim_C9 :
    (∀ (h : Host) (scr : Screen), h.deferred_raises = false → deferredReady h scr = true →
      ∃ t b, t ≠ b ∧
        configureCalls (deferredSetup h scr).2.2 = [(t, "FRONT"), (b, "RIGHT")] ∧
        (h.dsplitPost.areas t).y ≥ (h.dsplitPost.areas b).y) ∧
    (∀ (h : Host) (scr : Screen) (aid : Nat),
      h.hsplitPost.areaIds.Nodup → aid ∈ h.vsplitPost.areaIds →
      (splitExecute h scr aid).1 = OpRes.FINISHED →
      ∃ t b, t ≠ b ∧
        (splitExecute h scr aid).2.2.1 = some (t, b) ∧
        configureCalls (splitExecute h scr aid).2.2.2 = [(t, "FRONT"), (b, "RIGHT")] ∧
        (h.hsplitPost.areas t).y ≥ (h.hsplitPost.areas b).y) := by
  constructor
  · intro h scr hr hready
    obtain ⟨t, b, htb, hy, hEq⟩ := deferredSetup_ready_shape h scr hr hready
    exact ⟨t, b, htb, by rw [hEq]; try rfl, hy⟩
  · intro h scr aid hnodup haid hfin
    obtain ⟨t, b, htb, hy, hEq⟩ := splitExecute_finished_shape h scr aid hnodup haid hfin
    exact ⟨t, b, htb, by rw [hEq]; try rfl, by rw [hEq]; try rfl, hy⟩

/-- Witness for C9: the finished split run on the concrete host. -/
theorem claim_C9_witness :
    hS.hsplitPost.areaIds.Nodup ∧ (0 : Nat) ∈ hS.vsplitPost.areaIds ∧
    (splitExecute hS scrNew 0).1 = OpRes.FINISHED ∧
    (∃ t b, t ≠ b ∧
      (splitExecute hS scrNew 0).2.2.1 = some (t, b) ∧
      configureCalls (splitExecute hS scrNew 0).2.2.2 = [(t, "FRONT"), (b, "RIGHT")] ∧
      (hS.hsplitPost.areas t).y ≥ (hS.hsplitPost.areas b).y) :=
  ⟨by decide, by decide, rfl, claim_C9.2 hS scrNew 0 (by decide) (by decide) rfl⟩

/-- Claim C10: in `_post_fix`, after re-applying both axes, if the two view
rotations agree componentwise within `1e-5` then the bottom rotation is
replaced by `z90 @ qtop` (the literal quaternion `(0.70710678, 0, 0,
0.70710678)` times the top rotation) and the bottom view is forced to
`ORTHO`; if any component differs by `1e-5` or more, both `region_3d`s are
left unchanged by this step. -/
theorem claim_C10 (h : Host) (scr : Screen) (t b : Nat)
    (hr : h.postfix_raises = false) (hne : t ≠ b) :
    (sameQuat
        (((applyViewAxis h (applyViewAxis h scr t "FRONT").1 b "RIGHT").1.areas t).space.region_3d.view_rotation)
        (((applyViewAxis h (applyViewAxis h scr t "FRONT").1 b "RIGHT").1.areas b).space.region_3d.view_rotation) = true →
      ((postFixCb h scr t b).1.areas b).space.region_3d.view_rotation =
        qmul z90 (((applyViewAxis h (applyViewAxis h scr t "FRONT").1 b "RIGHT").1.areas t).space.region_3d.view_rotation) ∧
      ((postFixCb h scr t b).1.areas b).space.region_3d.view_perspective = "ORTHO" ∧
      ((postFixCb h scr t b).1.areas t).space.region_3d =
        (((applyViewAxis h (applyViewAxis h scr t "FRONT").1 b "RIGHT").1.areas t).space.region_3d)) ∧
    (sameQuat
        (((applyViewAxis h (applyViewAxis h scr t "FRONT").1 b "RIGHT").1.areas t).space.region_3d.view_rotation)
        (((applyViewAxis h (applyViewAxis h scr t "FRONT").1 b "RIGHT").1.areas b).space.region_3d.view_rotation) = false →
      ((postFixCb h scr t b).1.areas b).space.region_3d =
        (((applyViewAxis h (applyViewAxis h scr t "FRONT").1 b "RIGHT").1.areas b).space.region_3d) ∧
      ((postFixCb h scr t b).1.areas t).space.region_3d =
        (((applyViewAxis h (applyViewAxis h scr t "FRONT").1 b "RIGHT").1.areas t).space.region_3d)) := by
  unfold postFixCb
  simp only [hr, Bool.false_eq_true, if_false]
  constructor
  · intro hsame
    rw [updSpace_hide_region_3d, updSpace_hide_region_3d]
    rw [updSpace_hide_region_3d, updSpace_hide_region_3d]
    rw [if_pos hsame]
    rw [updR3d_areas_self]
    rw [updR3d_areas_ne _ _ _ _ hne]
    exact ⟨rfl, rfl, rfl⟩
  · intro hsame
    rw [updSpace_hide_region_3d, updSpace_hide_region_3d]
    rw [updSpace_hide_region_3d, updSpace_hide_region_3d]
    rw [if_neg (by simp [hsame])]
    exact ⟨rfl, rfl⟩

/-- Witness for C10 on the concrete host at areas 0 and 1. -/
theorem claim_C10_witness :
    hS.postfix_raises = false ∧ (0 : Nat) ≠ 1 ∧
    ((sameQuat
        (((applyViewAxis hS (applyViewAxis hS scrNew 0 "FRONT").1 1 "RIGHT").1.areas 0).space.region_3d.view_rotation)
        (((applyViewAxis hS (applyViewAxis hS scrNew 0 "FRONT").1 1 "RIGHT").1.areas 1).space.region_3d.view_rotation) = true →
      ((postFixCb hS scrNew 0 1).1.areas 1).space.region_3d.view_rotation =
        qmul z90 (((applyViewAxis hS (applyViewAxis hS scrNew 0 "FRONT").1 1 "RIGHT").1.areas 0).space.region_3d.view_rotation) ∧
      ((postFixCb hS scrNew 0 1).1.areas 1).space.region_3d.view_perspective = "ORTHO" ∧
      ((postFixCb hS scrNew 0 1).1.areas 0).space.region_3d =
        (((applyViewAxis hS (applyViewAxis hS scrNew 0 "FRONT").1 1 "RIGHT").1.areas 0).space.region_3d)) ∧
    (sameQuat
        (((applyViewAxis hS (applyViewAxis hS scrNew 0 "FRONT").1 1 "RIGHT").1.areas 0).space.region_3d.view_rotation)
        (((applyViewAxis hS (applyViewAxis hS scrNew 0 "FRONT").1 1 "RIGHT").1.areas 1).space.region_3d.view_rotation) = false →
      ((postFixCb hS scrNew 0 1).1.areas 1).space.region_3d =
        (((applyViewAxis hS (applyViewAxis hS scrNew 0 "FRONT").1 1 "RIGHT").1.areas 1).space.region_3d) ∧
      ((postFixCb hS scrNew 0 1).1.areas 0).space.region_3d =
        (((applyViewAxis hS (applyViewAxis hS scrNew 0 "FRONT").1 1 "RIGHT").1.areas 0).space.region_3d))) :=
  ⟨rfl, by decide, claim_C10 hS scrNew 0 1 rfl (by decide)⟩

end Silhouette
